import Mathlib

/-!
Shallow embedding of the go-libp2p-quic-transport telemetry tracer
(`tracer.go` body in `src/unnamed/part_000`) and the metrics
serialization code (`src/metrics/metrics.go`).

Modelling conventions:
* Go `int64` counters and `time.Time`/`time.Duration` values are modelled as
  unbounded `Int`; the claims concern the transition structure of the
  aggregator, where 64-bit wraparound is unreachable in any run the system
  supports (one increment per observed packet).
* `time.Now()` results are modelled as an explicit `now` argument carried by
  the event that reads the clock.
* Network addresses, peer ids and version numbers are opaque to the tracer;
  they are modelled as `Nat` (addresses, node, version) and `List Nat`
  (connection ids, byte strings).
* Fallible external operations (bufio flush, zstd close, file create/close,
  rename) are modelled by `Except Err Unit` outcomes supplied by the
  environment.
-/

abbrev Err := String

/-- `logging.Perspective`. The Go zero value is neither constant; every value
the tracer ever stores comes from `newConnectionTracer`, so the zero value is
modelled as `server`. -/
inductive Perspective where
  | client
  | server
deriving DecidableEq, Repr

/-- `logging.EncryptionLevel`. -/
inductive EncryptionLevel where
  | encryptionInitial
  | encryptionHandshake
  | encryption0RTT
  | encryption1RTT
deriving DecidableEq, Repr

/-- `logging.TimeoutReason`: `TimeoutReasonHandshake`, `TimeoutReasonIdle`,
plus `other` for any value outside the two named constants (the `switch` in
`toBigQuery` has a default arm). -/
inductive TimeoutReason where
  | handshake
  | idle
  | other
deriving DecidableEq, Repr

/-- `logging.CloseReason`: a record whose accessors `StatelessReset()`,
`Timeout()`, `ApplicationError()`, `TransportError()` each return a value and
an `ok` flag; modelled as four `Option` fields (Go zero value: all `none`).
Application/transport errors carry `(code, remote)`. -/
structure CloseReasonGo where
  statelessReset : Option (List Nat) := none
  timeout : Option TimeoutReason := none
  applicationError : Option (Int × Bool) := none
  transportError : Option (Int × Bool) := none
deriving DecidableEq, Repr

/-- `metrics.RTTMeasurement` (three `time.Duration` fields). -/
structure RTTMeasurement where
  minRTT : Int := 0
  smoothedRTT : Int := 0
  rttVar : Int := 0
deriving DecidableEq, Repr

/-- `metrics.ConnectionStats`: the mutable per-connection record, one field
per Go field that the tracer callbacks read or write. -/
structure ConnectionStats where
  node : Nat := 0
  perspective : Perspective := .server
  startTime : Int := 0
  endTime : Int := 0
  handshakeCompleteTime : Int := 0
  odcid : List Nat := []
  version : Nat := 0
  localAddr : Nat := 0
  remoteAddr : Nat := 0
  retryRcvd : Bool := false
  versionNegotiationVersions : List Nat := []
  packetsSent : Int := 0
  packetsRcvd : Int := 0
  packetsBuffered : Int := 0
  packetsDropped : Int := 0
  packetsLost : Int := 0
  ptoCount : Int := 0
  lastRTT : RTTMeasurement := {}
  handshakeRTT : RTTMeasurement := {}
  closeReason : CloseReasonGo := {}
deriving DecidableEq, Repr

/-- `newConnectionTracer`: zero-value stats with `ODCID`, `Node` and
`Perspective` filled in. -/
def newConnectionTracer (pers : Perspective) (odcid : List Nat) (node : Nat) :
    ConnectionStats :=
  { odcid := odcid, node := node, perspective := pers }

/-- `quicConnectionTracer.StartedConnection`. -/
def startedConnection (s : ConnectionStats) (localA remoteA : Nat)
    (version : Nat) (now : Int) : ConnectionStats :=
  { s with startTime := now, localAddr := localA, remoteAddr := remoteA,
           version := version }

/-- `quicConnectionTracer.ClosedConnection`. -/
def closedConnection (s : ConnectionStats) (r : CloseReasonGo) (now : Int) :
    ConnectionStats :=
  { s with closeReason := r, endTime := now }

/-- `quicConnectionTracer.SentPacket` (header, size, ack and frames are
ignored by the Go body). -/
def sentPacket (s : ConnectionStats) : ConnectionStats :=
  { s with packetsSent := s.packetsSent + 1 }

/-- `quicConnectionTracer.ReceivedVersionNegotiationPacket`. -/
def receivedVersionNegotiationPacket (s : ConnectionStats)
    (v : List Nat) : ConnectionStats :=
  { s with packetsRcvd := s.packetsRcvd + 1, versionNegotiationVersions := v }

/-- `quicConnectionTracer.ReceivedRetry`. -/
def receivedRetry (s : ConnectionStats) : ConnectionStats :=
  { s with packetsRcvd := s.packetsRcvd + 1, retryRcvd := true }

/-- `quicConnectionTracer.ReceivedPacket`. -/
def receivedPacket (s : ConnectionStats) : ConnectionStats :=
  { s with packetsRcvd := s.packetsRcvd + 1 }

/-- `quicConnectionTracer.BufferedPacket`. -/
def bufferedPacket (s : ConnectionStats) : ConnectionStats :=
  { s with packetsBuffered := s.packetsBuffered + 1 }

/-- `quicConnectionTracer.DroppedPacket`. -/
def droppedPacket (s : ConnectionStats) : ConnectionStats :=
  { s with packetsDropped := s.packetsDropped + 1 }

/-- `quicConnectionTracer.UpdatedMetrics`: overwrites `LastRTT` with the
sample read from `rttStats`. -/
def updatedMetrics (s : ConnectionStats) (rtt : RTTMeasurement) :
    ConnectionStats :=
  { s with lastRTT := rtt }

/-- `quicConnectionTracer.LostPacket`. -/
def lostPacket (s : ConnectionStats) : ConnectionStats :=
  { s with packetsLost := s.packetsLost + 1 }

/-- `quicConnectionTracer.UpdatedPTOCount`: `if value > 0 { PTOCount++ }`
(`value` is a `uint32`). -/
def updatedPTOCount (s : ConnectionStats) (value : Nat) : ConnectionStats :=
  if value > 0 then { s with ptoCount := s.ptoCount + 1 } else s

/-- `quicConnectionTracer.UpdatedKeyFromTLS`:
`if l == Encryption1RTT && p == PerspectiveClient` set
`HandshakeCompleteTime = time.Now()` and `HandshakeRTT = LastRTT`. -/
def updatedKeyFromTLS (s : ConnectionStats) (l : EncryptionLevel)
    (p : Perspective) (now : Int) : ConnectionStats :=
  if l = EncryptionLevel.encryption1RTT ∧ p = Perspective.client then
    { s with handshakeCompleteTime := now, handshakeRTT := s.lastRTT }
  else s

/-- One callback invocation on a `quicConnectionTracer`, with the arguments
(and the clock reading, where the body calls `time.Now()`) that affect the
stats record. The constructors past `updatedKeyFromTLS` are the callbacks
whose Go bodies are empty. -/
inductive Event where
  | startedConnection (localA remoteA : Nat) (version : Nat) (now : Int)
  | closedConnection (r : CloseReasonGo) (now : Int)
  | sentTransportParameters
  | receivedTransportParameters
  | sentPacket
  | receivedVersionNegotiationPacket (v : List Nat)
  | receivedRetry
  | receivedPacket
  | bufferedPacket
  | droppedPacket
  | updatedMetrics (rtt : RTTMeasurement)
  | lostPacket
  | updatedCongestionState
  | updatedPTOCount (value : Nat)
  | updatedKeyFromTLS (l : EncryptionLevel) (p : Perspective) (now : Int)
  | updatedKey
  | droppedEncryptionLevel
  | droppedKey
  | setLossTimer
  | lossTimerExpired
  | lossTimerCanceled
  | debug
deriving DecidableEq, Repr

/-- Dispatch of one callback to the corresponding method body. -/
def applyEvent (s : ConnectionStats) : Event → ConnectionStats
  | .startedConnection localA remoteA version now =>
      startedConnection s localA remoteA version now
  | .closedConnection r now => closedConnection s r now
  | .sentTransportParameters => s
  | .receivedTransportParameters => s
  | .sentPacket => sentPacket s
  | .receivedVersionNegotiationPacket v => receivedVersionNegotiationPacket s v
  | .receivedRetry => receivedRetry s
  | .receivedPacket => receivedPacket s
  | .bufferedPacket => bufferedPacket s
  | .droppedPacket => droppedPacket s
  | .updatedMetrics rtt => updatedMetrics s rtt
  | .lostPacket => lostPacket s
  | .updatedCongestionState => s
  | .updatedPTOCount value => updatedPTOCount s value
  | .updatedKeyFromTLS l p now => updatedKeyFromTLS s l p now
  | .updatedKey => s
  | .droppedEncryptionLevel => s
  | .droppedKey => s
  | .setLossTimer => s
  | .lossTimerExpired => s
  | .lossTimerCanceled => s
  | .debug => s

/-- A serialized sequence of callbacks delivered to one tracer (the engine
serializes calls per connection). -/
def applyEvents (s : ConnectionStats) (es : List Event) : ConnectionStats :=
  es.foldl applyEvent s

/-! ### Close-reason serialization (`metrics.go`, `ConnectionStats.toBigQuery`) -/

/-- `metrics.transportOrApplicationError` (BigQuery row fragment). -/
structure TransportOrApplicationError where
  remote : Bool
  errorCode : Int
  reasonPhrase : String := ""
deriving DecidableEq, Repr

/-- `metrics.closeReason`: the BigQuery row fragment with nullable fields,
modelled as `Option`s (`Valid = false` / nil pointer is `none`). -/
structure BQCloseReason where
  timeout : Option String := none
  statelessReset : Option Bool := none
  transportError : Option TransportOrApplicationError := none
  applicationError : Option TransportOrApplicationError := none
  errorMessage : Option String := none
deriving DecidableEq, Repr

/-- The `switch timeout` statement inside `toBigQuery`: the local starts as
`"unknown"` and the two named constants overwrite it. -/
def timeoutReasonString : TimeoutReason → String
  | .handshake => "handshake"
  | .idle => "idle"
  | .other => "unknown"

/-- The close-reason block of `ConnectionStats.toBigQuery`
(`metrics.go` lines 126-148): `cr := closeReason{}` followed by the
`if / else if` chain over the `CloseReason` accessors. -/
def closeReasonToBigQuery (r : CloseReasonGo) : BQCloseReason :=
  match r.statelessReset with
  | some _ => { statelessReset := some true }
  | none =>
    match r.timeout with
    | some t => { timeout := some (timeoutReasonString t) }
    | none =>
      match r.applicationError with
      | some (code, remote) =>
          { applicationError := some { remote := remote, errorCode := code } }
      | none =>
        match r.transportError with
        | some (code, remote) =>
            { transportError := some { remote := remote, errorCode := code } }
        | none => {}

/-- Number of the four close-classification fields of the row fragment that
are set (the `error_message` field is never set by `toBigQuery`). -/
def bqCloseReasonSetCount (cr : BQCloseReason) : Nat :=
  (if cr.statelessReset.isSome then 1 else 0) +
  (if cr.timeout.isSome then 1 else 0) +
  (if cr.applicationError.isSome then 1 else 0) +
  (if cr.transportError.isSome then 1 else 0)

/-! ### The qlog file writer (`newQlogger`, `qlogger.Close`,
`bufferedWriteCloser.Close`) -/

/-- A step of the finalize path, in the order the Go code performs them.
`closeUnderlying` is `bufferedWriteCloser`'s `h.Closer.Close()`; in the
qlogger instance the `Closer` is the zstd compression stream. -/
inductive CloseStep where
  | flushBuffer
  | closeUnderlying
  | closeTempFile
  | renameTempToFinal
deriving DecidableEq, Repr

/-- State of the buffering layer in front of the underlying closable sink:
bytes still held by the `bufio.Writer`, bytes already pushed into the
underlying sink, and whether `Closer.Close()` has been invoked. -/
structure BufState where
  buffered : List Nat := []
  sunk : List Nat := []
  closeAttempted : Bool := false
deriving DecidableEq, Repr

/-- `bufferedWriteCloser.Close`: `if err := h.Writer.Flush(); err != nil
{ return err }; return h.Closer.Close()`. A successful flush moves every
buffered byte into the underlying sink; the environment supplies the flush
and close outcomes. Returns the error result, the new state, and the trace
of steps performed. -/
def bufferedWriteCloserClose (flushResult closerResult : Except Err Unit)
    (st : BufState) : Except Err Unit × BufState × List CloseStep :=
  match flushResult with
  | .error e => (.error e, st, [.flushBuffer])
  | .ok _ =>
      (closerResult,
       { buffered := [], sunk := st.sunk ++ st.buffered,
         closeAttempted := true },
       [.flushBuffer, .closeUnderlying])

/-- Existence of the qlogger's two paths: the temp file
(`QLOGDIR/.log_xxx.qlog.zst.swp`) and the final file
(`QLOGDIR/log_xxx.qlog.zst`). -/
structure QlogFS where
  tempExists : Bool
  finalExists : Bool
deriving DecidableEq, Repr

/-- `qlogger.Close`: call `l.WriteCloser.Close()` (the buffered writer over
the zstd stream), return on error; call `l.f.Close()`, return on error;
`os.Rename(path, l.filename)`. A successful rename removes the temp path and
creates the final path; nothing else touches either path. -/
def qloggerClose (flushResult compressionCloseResult fileCloseResult
    renameResult : Except Err Unit) (st : BufState) (fs : QlogFS) :
    Except Err Unit × BufState × QlogFS × List CloseStep :=
  match bufferedWriteCloserClose flushResult compressionCloseResult st with
  | (.error e, st', tr) => (.error e, st', fs, tr)
  | (.ok _, st', tr) =>
    match fileCloseResult with
    | .error e => (.error e, st', fs, tr ++ [.closeTempFile])
    | .ok _ =>
      match renameResult with
      | .error e =>
          (.error e, st', fs, tr ++ [.closeTempFile, .renameTempToFinal])
      | .ok _ =>
          (.ok (), st', { tempExists := false, finalExists := true },
           tr ++ [.closeTempFile, .renameTempToFinal])

/-! ### Filenames computed by `newQlogger` -/

/-- Go `%x` on a single byte: two lowercase hex digits. -/
def byteHex (b : Nat) : String :=
  String.mk [Nat.digitChar (b / 16 % 16), Nat.digitChar (b % 16)]

/-- Go `%x` on a `[]byte`: the concatenation of the bytes' hex digits. -/
def bytesHex (bs : List Nat) : String :=
  bs.foldl (fun acc b => acc ++ byteHex b) ""

/-- The `r` local of `newQlogger`: `"server"`, overwritten with `"client"`
when `role == logging.PerspectiveClient`. -/
def roleString : Perspective → String
  | .client => "client"
  | .server => "server"

/-- `os.PathSeparator` on the target platform. -/
def pathSeparator : String := "/"

/-- The `finalFilename` local of `newQlogger`:
`fmt.Sprintf("%s%clog_%s_%s_%x.qlog.zst", qlogDir, os.PathSeparator, t, r,
connID)` with `t` the formatted creation timestamp. -/
def newQloggerFinalFilename (qlogDir t : String) (role : Perspective)
    (connID : List Nat) : String :=
  qlogDir ++ pathSeparator ++ "log_" ++ t ++ "_" ++ roleString role ++ "_" ++
    bytesHex connID ++ ".qlog.zst"

/-- The `filename` local of `newQlogger`:
`fmt.Sprintf("%s%c.log_%s_%s_%x.qlog.zst.swp", qlogDir, os.PathSeparator, t,
r, connID)`. -/
def newQloggerTempFilename (qlogDir t : String) (role : Perspective)
    (connID : List Nat) : String :=
  qlogDir ++ pathSeparator ++ ".log_" ++ t ++ "_" ++ roleString role ++ "_" ++
    bytesHex connID ++ ".qlog.zst.swp"

/-- The value held by a constructed `qlogger`: the temp path it writes to
(`f.Name()`) and the final path it renames to on close. -/
structure Qlogger where
  tempName : String
  finalName : String
deriving DecidableEq, Repr

/-- `newQlogger`: compute the two filenames, `os.Create(filename)` (failure:
log and return nil), `zstd.NewWriter(f, ...)` (failure: log and return nil),
otherwise return the qlogger. The two fallible external calls are supplied as
outcomes; `none` models the Go `nil` writer, which carries no error to the
caller. -/
def newQlogger (qlogDir t : String) (role : Perspective) (connID : List Nat)
    (createResult zstdInitResult : Except Err Unit) : Option Qlogger :=
  let finalFilename := newQloggerFinalFilename qlogDir t role connID
  let filename := newQloggerTempFilename qlogDir t role connID
  match createResult with
  | .error _ => none
  | .ok _ =>
    match zstdInitResult with
    | .error _ => none
    | .ok _ => some { tempName := filename, finalName := finalFilename }

/-! ### Spec-side filename formulas (for the refinement claim C6) -/

/-- The final-filename formula as the spec writes it:
`dir/"log_" + isoTimestamp + "_" + role + "_" + hexConnID + ".trace.zst"`. -/
def specFinalFilename (dir iso role hexConnID : String) : String :=
  dir ++ "/" ++ "log_" ++ iso ++ "_" ++ role ++ "_" ++ hexConnID ++
    ".trace.zst"

/-- The temp-filename formula as the spec writes it: the final name with the
basename prefixed by `"."` and the whole suffixed by `".swp"`. -/
def specTempFilename (dir iso role hexConnID : String) : String :=
  dir ++ "/" ++ "." ++ ("log_" ++ iso ++ "_" ++ role ++ "_" ++ hexConnID ++
    ".trace.zst") ++ ".swp"

/-- The spec's final-filename formula amended to the extension the code
uses (`.qlog.zst` instead of `.trace.zst`). -/
def specFinalFilenameAmended (dir iso role hexConnID : String) : String :=
  dir ++ "/" ++ "log_" ++ iso ++ "_" ++ role ++ "_" ++ hexConnID ++
    ".qlog.zst"

/-- The spec's temp-filename formula amended to the extension the code uses:
the final name's basename prefixed by `"."`, the whole suffixed by
`".swp"`. -/
def specTempFilenameAmended (dir iso role hexConnID : String) : String :=
  dir ++ "/" ++ "." ++ ("log_" ++ iso ++ "_" ++ role ++ "_" ++ hexConnID ++
    ".qlog.zst") ++ ".swp"

/-! ### Helper lemmas -/

theorem applyEvents_nil (s : ConnectionStats) : applyEvents s [] = s := rfl

theorem applyEvents_cons (s : ConnectionStats) (e : Event) (es : List Event) :
    applyEvents s (e :: es) = applyEvents (applyEvent s e) es := rfl

theorem applyEvents_append (s : ConnectionStats) (es fs : List Event) :
    applyEvents s (es ++ fs) = applyEvents (applyEvents s es) fs := by
  simp [applyEvents]

theorem stringAppendAssoc (a b c : String) : a ++ b ++ c = a ++ (b ++ c) := by
  apply String.ext
  simp [String.data_append]

theorem dotLogSplit : (".log_" : String) = "." ++ "log_" := rfl

theorem swpSplit : (".qlog.zst.swp" : String) = ".qlog.zst" ++ ".swp" := rfl

/-- After a flush that succeeded, the buffering layer is empty, its former
content sits at the end of the underlying sink, and the underlying close has
been invoked. -/
def flushedBufState (st : BufState) : BufState :=
  { buffered := [], sunk := st.sunk ++ st.buffered, closeAttempted := true }

theorem ptoCount_map_updatedPTOCount (vs : List Nat) (s : ConnectionStats) :
    (applyEvents s (vs.map Event.updatedPTOCount)).ptoCount =
      s.ptoCount + ((vs.filter (fun v => 0 < v)).length : Int) := by
  induction vs generalizing s with
  | nil => simp [applyEvents]
  | cons v rest ih =>
      rw [List.map_cons, applyEvents_cons, ih]
      by_cases h : 0 < v
      · simp [applyEvent, updatedPTOCount, h, List.filter_cons]
        omega
      · simp [applyEvent, updatedPTOCount, h, List.filter_cons]

theorem packetsSent_replicate (n : Nat) (s : ConnectionStats) :
    (applyEvents s (List.replicate n Event.sentPacket)).packetsSent =
      s.packetsSent + n := by
  induction n generalizing s with
  | zero => simp [applyEvents]
  | succ k ih =>
      rw [List.replicate_succ, applyEvents_cons, ih]
      simp [applyEvent, sentPacket]
      omega

/-! ### Claim theorems -/

/-- C2 counterexample: on the PTO-update sequence `[0, 1, 1, 2, 0, 3]` the
tracer's final `PTOCount` is not `2` (the number of zero-to-nonzero
transitions); the code counts every call with a nonzero value. -/
theorem updatedPTOCount_seq_not_transition_count :
    (applyEvents (newConnectionTracer .client [] 0)
        ([0, 1, 1, 2, 0, 3].map Event.updatedPTOCount)).ptoCount ≠ 2 := by
  decide

/-- C2 (amended): for every sequence of PTO-update events, the final
`PTOCount` equals its previous value plus the number of calls whose value is
nonzero; in particular the sequence `[0, 1, 1, 2, 0, 3]` yields `4`. -/
theorem updatedPTOCount_counts_nonzero_calls (s : ConnectionStats)
    (vs : List Nat) :
    (applyEvents s (vs.map Event.updatedPTOCount)).ptoCount =
      s.ptoCount + ((vs.filter (fun v => 0 < v)).length : Int) ∧
    (applyEvents (newConnectionTracer .client [] 0)
        ([0, 1, 1, 2, 0, 3].map Event.updatedPTOCount)).ptoCount = 4 := by
  exact ⟨ptoCount_map_updatedPTOCount vs s, by decide⟩

/-- C3 counterexample: a second 1-RTT client-perspective key-install event
does not leave the handshake fields unchanged — it overwrites the
handshake-complete time with the new clock reading. -/
theorem updatedKeyFromTLS_second_event_overwrites :
    (applyEvent (applyEvent (newConnectionTracer .client [] 0)
          (.updatedKeyFromTLS .encryption1RTT .client 1))
        (.updatedKeyFromTLS .encryption1RTT .client 2)).handshakeCompleteTime ≠
      (applyEvent (newConnectionTracer .client [] 0)
        (.updatedKeyFromTLS .encryption1RTT .client 1)).handshakeCompleteTime := by
  decide

/-- C3 (amended): every 1-RTT client-perspective key-install event sets the
handshake-complete time to the current clock and snapshots the handshake RTT
from the last RTT sample (later such events overwrite), and every key-install
event of any other level or perspective leaves the record unchanged; the
fields are therefore set at most once provided the engine delivers the 1-RTT
client key-install event at most once. -/
theorem updatedKeyFromTLS_spec (s : ConnectionStats) (l : EncryptionLevel)
    (p : Perspective) (now : Int) :
    (l = .encryption1RTT → p = .client →
      applyEvent s (.updatedKeyFromTLS l p now) =
        { s with handshakeCompleteTime := now, handshakeRTT := s.lastRTT }) ∧
    (¬(l = .encryption1RTT ∧ p = .client) →
      applyEvent s (.updatedKeyFromTLS l p now) = s) := by
  constructor
  · intro hl hp
    subst hl; subst hp
    simp [applyEvent, updatedKeyFromTLS]
  · intro h
    simp [applyEvent, updatedKeyFromTLS, h]

/-- C3 witness: at a concrete state and event, the amended theorem's two
branches evaluate as stated. -/
theorem updatedKeyFromTLS_spec_witness :
    applyEvent (newConnectionTracer .client [] 0)
        (.updatedKeyFromTLS .encryption1RTT .client 5) =
      { newConnectionTracer .client [] 0 with
        handshakeCompleteTime := 5,
        handshakeRTT := (newConnectionTracer .client [] 0).lastRTT } ∧
    applyEvent (newConnectionTracer .client [] 0)
        (.updatedKeyFromTLS .encryptionHandshake .server 5) =
      newConnectionTracer .client [] 0 := by
  constructor
  · exact (updatedKeyFromTLS_spec (newConnectionTracer .client [] 0)
      .encryption1RTT .client 5).1 rfl rfl
  · exact (updatedKeyFromTLS_spec (newConnectionTracer .client [] 0)
      .encryptionHandshake .server 5).2 (by simp)

/-- C5: the serialized close-reason row fragment sets at most one of the
stateless-reset, timeout, application-error and transport-error fields, and a
stateless-reset closure sets none of the other three. -/
theorem closeReason_fields_mutually_exclusive (r : CloseReasonGo) :
    bqCloseReasonSetCount (closeReasonToBigQuery r) ≤ 1 ∧
    (r.statelessReset.isSome →
      (closeReasonToBigQuery r).timeout = none ∧
      (closeReasonToBigQuery r).applicationError = none ∧
      (closeReasonToBigQuery r).transportError = none) := by
  obtain ⟨sr, tmo, ae, te⟩ := r
  rcases sr with _ | tok <;> rcases tmo with _ | tr <;>
    rcases ae with _ | ⟨ac, arem⟩ <;> rcases te with _ | ⟨tc, trem⟩ <;>
    simp [closeReasonToBigQuery, bqCloseReasonSetCount]

/-- C5 witness: the stateless-reset closure, concretely. -/
theorem closeReason_fields_mutually_exclusive_witness :
    (closeReasonToBigQuery { statelessReset := some [1, 2] }).timeout = none ∧
    (closeReasonToBigQuery { statelessReset := some [1, 2] }).applicationError
      = none ∧
    (closeReasonToBigQuery { statelessReset := some [1, 2] }).transportError
      = none :=
  (closeReason_fields_mutually_exclusive
    { statelessReset := some [1, 2] }).2 (by decide)

theorem applyEvent_counters_mono (s : ConnectionStats) (e : Event) :
    s.packetsSent ≤ (applyEvent s e).packetsSent ∧
    s.packetsRcvd ≤ (applyEvent s e).packetsRcvd ∧
    s.packetsBuffered ≤ (applyEvent s e).packetsBuffered ∧
    s.packetsDropped ≤ (applyEvent s e).packetsDropped ∧
    s.packetsLost ≤ (applyEvent s e).packetsLost ∧
    s.ptoCount ≤ (applyEvent s e).ptoCount := by
  cases e <;>
    simp only [applyEvent, startedConnection, closedConnection, sentPacket,
      receivedVersionNegotiationPacket, receivedRetry, receivedPacket,
      bufferedPacket, droppedPacket, updatedMetrics, lostPacket,
      updatedPTOCount, updatedKeyFromTLS] <;>
    (try split) <;> simp

theorem applyEvents_counters_mono (s : ConnectionStats) (es : List Event) :
    s.packetsSent ≤ (applyEvents s es).packetsSent ∧
    s.packetsRcvd ≤ (applyEvents s es).packetsRcvd ∧
    s.packetsBuffered ≤ (applyEvents s es).packetsBuffered ∧
    s.packetsDropped ≤ (applyEvents s es).packetsDropped ∧
    s.packetsLost ≤ (applyEvents s es).packetsLost ∧
    s.ptoCount ≤ (applyEvents s es).ptoCount := by
  induction es generalizing s with
  | nil => simp [applyEvents]
  | cons e es ih =>
      rw [applyEvents_cons]
      have h1 := applyEvent_counters_mono s e
      have h2 := ih (applyEvent s e)
      exact ⟨le_trans h1.1 h2.1, le_trans h1.2.1 h2.2.1,
        le_trans h1.2.2.1 h2.2.2.1, le_trans h1.2.2.2.1 h2.2.2.2.1,
        le_trans h1.2.2.2.2.1 h2.2.2.2.2.1, le_trans h1.2.2.2.2.2 h2.2.2.2.2.2⟩

theorem vn_packetsRcvd (vss : List (List Nat)) (s : ConnectionStats) :
    (applyEvents s
        (vss.map Event.receivedVersionNegotiationPacket)).packetsRcvd =
      s.packetsRcvd + (vss.length : Int) := by
  induction vss generalizing s with
  | nil => simp [applyEvents]
  | cons v rest ih =>
      rw [List.map_cons, applyEvents_cons, ih]
      simp [applyEvent, receivedVersionNegotiationPacket]
      omega

/-- C8: delivering `n` packet-sent events to a fresh tracer, followed by the
close event, leaves `PacketsSent` equal to `n`. -/
theorem packetsSent_counts_sent_events (n : Nat) (pers : Perspective)
    (odcid : List Nat) (node : Nat) (r : CloseReasonGo) (now : Int) :
    (applyEvents (newConnectionTracer pers odcid node)
        (List.replicate n Event.sentPacket ++
          [Event.closedConnection r now])).packetsSent = n := by
  rw [applyEvents_append, applyEvents_cons, applyEvents_nil]
  simp [applyEvent, closedConnection, packetsSent_replicate,
    newConnectionTracer]

/-- C9: every event callback leaves each of the six counters (packets sent,
received, buffered, dropped, lost, PTO count) at least its previous value,
and on a fresh tracer every event sequence keeps all six counters
non-negative. -/
theorem tracer_counters_monotone_nonneg (s : ConnectionStats) (e : Event)
    (es : List Event) (pers : Perspective) (odcid : List Nat) (node : Nat) :
    (s.packetsSent ≤ (applyEvent s e).packetsSent ∧
     s.packetsRcvd ≤ (applyEvent s e).packetsRcvd ∧
     s.packetsBuffered ≤ (applyEvent s e).packetsBuffered ∧
     s.packetsDropped ≤ (applyEvent s e).packetsDropped ∧
     s.packetsLost ≤ (applyEvent s e).packetsLost ∧
     s.ptoCount ≤ (applyEvent s e).ptoCount) ∧
    (0 ≤ (applyEvents (newConnectionTracer pers odcid node) es).packetsSent ∧
     0 ≤ (applyEvents (newConnectionTracer pers odcid node) es).packetsRcvd ∧
     0 ≤ (applyEvents (newConnectionTracer pers odcid node) es).packetsBuffered ∧
     0 ≤ (applyEvents (newConnectionTracer pers odcid node) es).packetsDropped ∧
     0 ≤ (applyEvents (newConnectionTracer pers odcid node) es).packetsLost ∧
     0 ≤ (applyEvents (newConnectionTracer pers odcid node) es).ptoCount) := by
  refine ⟨applyEvent_counters_mono s e, ?_⟩
  have h := applyEvents_counters_mono (newConnectionTracer pers odcid node) es
  simpa [newConnectionTracer] using h

/-- C10: each received version-negotiation packet increments `PacketsRcvd` by
one and replaces the stored offered-version list, so after any nonempty
sequence of version-negotiation packets the recorded list equals exactly the
versions of the most recent packet. -/
theorem receivedVersionNegotiation_replaces (s : ConnectionStats)
    (v : List Nat) (vss : List (List Nat)) :
    (applyEvent s (.receivedVersionNegotiationPacket v)).packetsRcvd =
      s.packetsRcvd + 1 ∧
    (applyEvent s
        (.receivedVersionNegotiationPacket v)).versionNegotiationVersions
      = v ∧
    (applyEvents s ((vss ++ [v]).map
        Event.receivedVersionNegotiationPacket)).versionNegotiationVersions
      = v ∧
    (applyEvents s ((vss ++ [v]).map
        Event.receivedVersionNegotiationPacket)).packetsRcvd =
      s.packetsRcvd + (vss.length : Int) + 1 := by
  refine ⟨rfl, rfl, ?_, ?_⟩
  · rw [List.map_append, applyEvents_append]
    rfl
  · rw [vn_packetsRcvd]
    simp
    omega

/-- C4: `bufferedWriteCloser.Close` flushes every buffered byte into the
underlying sink before closing it; a flush failure is returned immediately
and the underlying close is not attempted; otherwise the result of the
underlying close is returned. -/
theorem bufferedWriteCloserClose_spec
    (flushResult closerResult : Except Err Unit) (st : BufState) :
    (∀ e, flushResult = .error e →
      bufferedWriteCloserClose flushResult closerResult st =
        (.error e, st, [.flushBuffer])) ∧
    (flushResult = .ok () →
      bufferedWriteCloserClose flushResult closerResult st =
        (closerResult, flushedBufState st,
         [.flushBuffer, .closeUnderlying])) := by
  constructor
  · intro e h
    subst h
    rfl
  · intro h
    subst h
    rfl

/-- C4 witness: a failing flush short-circuits; a successful flush empties
the buffer into the sink and hands back the underlying close's result. -/
theorem bufferedWriteCloserClose_spec_witness :
    bufferedWriteCloserClose (.error "flush failed") (.ok ())
        ⟨[1, 2], [0], false⟩ =
      (.error "flush failed", ⟨[1, 2], [0], false⟩, [.flushBuffer]) ∧
    bufferedWriteCloserClose (.ok ()) (.error "close failed")
        ⟨[1, 2], [0], false⟩ =
      (.error "close failed", ⟨[], [0, 1, 2], true⟩,
       [.flushBuffer, .closeUnderlying]) := by
  constructor
  · exact (bufferedWriteCloserClose_spec (.error "flush failed") (.ok ())
      ⟨[1, 2], [0], false⟩).1 "flush failed" rfl
  · have h := (bufferedWriteCloserClose_spec (.ok ()) (.error "close failed")
      ⟨[1, 2], [0], false⟩).2 rfl
    simpa [flushedBufState] using h

/-- C1: `qlogger.Close` performs flush-buffer, close-compression-stream,
close-temp-file, rename-temp-to-final in that order; the first failing step's
error is returned, every later step (the rename in particular) is not
performed, and on any failure the filesystem is untouched — the final path is
never created and the temp path is left in place; only a fully successful run
renames the temp path to the final path. -/
theorem qloggerClose_spec (flushResult compressionCloseResult fileCloseResult
    renameResult : Except Err Unit) (st : BufState) (fs : QlogFS) :
    (∀ e, flushResult = .error e →
      qloggerClose flushResult compressionCloseResult fileCloseResult
          renameResult st fs =
        (.error e, st, fs, [.flushBuffer])) ∧
    (∀ e, flushResult = .ok () → compressionCloseResult = .error e →
      qloggerClose flushResult compressionCloseResult fileCloseResult
          renameResult st fs =
        (.error e, flushedBufState st, fs,
         [.flushBuffer, .closeUnderlying])) ∧
    (∀ e, flushResult = .ok () → compressionCloseResult = .ok () →
      fileCloseResult = .error e →
      qloggerClose flushResult compressionCloseResult fileCloseResult
          renameResult st fs =
        (.error e, flushedBufState st, fs,
         [.flushBuffer, .closeUnderlying, .closeTempFile])) ∧
    (∀ e, flushResult = .ok () → compressionCloseResult = .ok () →
      fileCloseResult = .ok () → renameResult = .error e →
      qloggerClose flushResult compressionCloseResult fileCloseResult
          renameResult st fs =
        (.error e, flushedBufState st, fs,
         [.flushBuffer, .closeUnderlying, .closeTempFile,
          .renameTempToFinal])) ∧
    (flushResult = .ok () → compressionCloseResult = .ok () →
      fileCloseResult = .ok () → renameResult = .ok () →
      qloggerClose flushResult compressionCloseResult fileCloseResult
          renameResult st fs =
        (.ok (), flushedBufState st,
         { tempExists := false, finalExists := true },
         [.flushBuffer, .closeUnderlying, .closeTempFile,
          .renameTempToFinal])) := by
  refine ⟨?_, ?_, ?_, ?_, ?_⟩
  · intro e h1
    subst h1
    rfl
  · intro e h1 h2
    subst h1; subst h2
    rfl
  · intro e h1 h2 h3
    subst h1; subst h2; subst h3
    rfl
  · intro e h1 h2 h3 h4
    subst h1; subst h2; subst h3; subst h4
    rfl
  · intro h1 h2 h3 h4
    subst h1; subst h2; subst h3; subst h4
    rfl

/-- C1 witness: with a failing flush, the call returns the flush error after
the flush step alone, and an initially present temp file and absent final
file stay exactly that way. -/
theorem qloggerClose_spec_witness :
    qloggerClose (.error "flush failed") (.ok ()) (.ok ()) (.ok ())
        ⟨[9], [], false⟩ ⟨true, false⟩ =
      (.error "flush failed", ⟨[9], [], false⟩, ⟨true, false⟩,
       [.flushBuffer]) :=
  (qloggerClose_spec (.error "flush failed") (.ok ()) (.ok ()) (.ok ())
    ⟨[9], [], false⟩ ⟨true, false⟩).1 "flush failed" rfl

/-- C7: if creating the temp file fails or initializing the compression
stream fails, `newQlogger` returns no writer (`nil`); the error itself is
only logged, never handed to the caller. -/
theorem newQlogger_failure_yields_none (qlogDir t : String)
    (role : Perspective) (connID : List Nat)
    (createResult zstdInitResult : Except Err Unit)
    (h : (∃ e, createResult = .error e) ∨ (∃ e, zstdInitResult = .error e)) :
    newQlogger qlogDir t role connID createResult zstdInitResult = none := by
  rcases h with ⟨e, he⟩ | ⟨e, he⟩
  · subst he
    rfl
  · subst he
    cases createResult with
    | error e2 => rfl
    | ok u => rfl

/-- C7 witness: both failure modes, concretely. -/
theorem newQlogger_failure_yields_none_witness :
    newQlogger "qlogs" "ts" .client [171] (.error "create failed") (.ok ())
        = none ∧
    newQlogger "qlogs" "ts" .server [171] (.ok ()) (.error "zstd failed")
        = none :=
  ⟨newQlogger_failure_yields_none "qlogs" "ts" .client [171]
      (.error "create failed") (.ok ()) (Or.inl ⟨"create failed", rfl⟩),
   newQlogger_failure_yields_none "qlogs" "ts" .server [171]
      (.ok ()) (.error "zstd failed") (Or.inr ⟨"zstd failed", rfl⟩)⟩

/-- C6 counterexample: at a concrete directory, timestamp, role and
connection id, the final filename computed by `newQlogger` differs from the
spec's formula — the code uses the extension `.qlog.zst`, the spec claims
`.trace.zst`. -/
theorem newQloggerFinalFilename_ne_spec_formula :
    newQloggerFinalFilename "d" "T" .client [171] ≠
      specFinalFilename "d" "T" "client" (bytesHex [171]) := by
  decide

/-- C6 (amended): the final filename equals
`dir/"log_" + isoTimestamp + "_" + role + "_" + hexConnID + ".qlog.zst"` and
the temp filename is the same name with the basename prefixed by `"."` and
the whole suffixed by `".swp"`; i.e. the claim's formulas with extension
`.qlog.zst` in place of `.trace.zst`. -/
theorem newQloggerFilenames_match_amended_formula (dir iso : String)
    (role : Perspective) (connID : List Nat) :
    newQloggerFinalFilename dir iso role connID =
      specFinalFilenameAmended dir iso (roleString role) (bytesHex connID) ∧
    newQloggerTempFilename dir iso role connID =
      specTempFilenameAmended dir iso (roleString role) (bytesHex connID) := by
  constructor
  · rfl
  · simp only [newQloggerTempFilename, specTempFilenameAmended, pathSeparator,
      dotLogSplit, swpSplit, stringAppendAssoc]
